import Mathlib

/-!
Verification model of SulvionPiGUI's core layout layer
(`SulvionPiGUI/core/grid.py`, `core/app.py`, `core/debug.py`).

Logical pixel quantities are modelled as rationals `ℚ`; grid units and
committed pixel offsets as integers `ℤ`.  Python's `int()` (truncation
toward zero) and `round()` (nearest, ties to even) are modelled by
`pyInt` and `pyRound` below.
-/

/-- Python `int(q)`: truncation toward zero. -/
def pyInt (q : ℚ) : ℤ :=
  if q < 0 then -(Int.floor (-q)) else Int.floor q

/-- Python `round(q)` for a real argument: nearest integer, ties to even. -/
def pyRound (q : ℚ) : ℤ :=
  if q - (Int.floor q : ℚ) < 1/2 then Int.floor q
  else if 1/2 < q - (Int.floor q : ℚ) then Int.floor q + 1
  else if Even (Int.floor q) then Int.floor q else Int.floor q + 1

example : pyInt (19/10) = 1 := by norm_num [pyInt]
example : pyInt (-27/10) = -2 := by norm_num [pyInt]
example : pyRound (5/2) = 2 := by norm_num [pyRound]
example : pyRound (-5/2) = -2 := by
  norm_num [pyRound]
  decide
example : pyRound (127/50) = 3 := by norm_num [pyRound]
example : pyRound (148/50) = 3 := by norm_num [pyRound]

/-- Model of `GridSystem` (`core/grid.py`): holds only the grid-to-pixel
factor `gtp`. -/
structure GridSystem where
  gtp : ℤ
deriving DecidableEq, Repr

/-- Model of `GridSystem.__init__` (`core/grid.py` lines 8-15): the source
performs no validation of `gtp`, so construction always succeeds. -/
def GridSystem.init (gtp : ℤ) : Except String GridSystem :=
  .ok ⟨gtp⟩

/-- Model of `GridSystem.to_pixels`: `(int(grid_pos[0] * gtp), int(grid_pos[1] * gtp))`. -/
def GridSystem.to_pixels (g : GridSystem) (grid_pos : ℚ × ℚ) : ℤ × ℤ :=
  (pyInt (grid_pos.1 * (g.gtp : ℚ)), pyInt (grid_pos.2 * (g.gtp : ℚ)))

/-- Model of `GridSystem.dim_to_pixels`: same computation applied to a
width/height pair. -/
def GridSystem.dim_to_pixels (g : GridSystem) (grid_dim : ℚ × ℚ) : ℤ × ℤ :=
  (pyInt (grid_dim.1 * (g.gtp : ℚ)), pyInt (grid_dim.2 * (g.gtp : ℚ)))

/-- Model of `GridSystem.get_window_size`: delegates to `dim_to_pixels`. -/
def GridSystem.get_window_size (g : GridSystem) (size_grid : ℚ × ℚ) : ℤ × ℤ :=
  g.dim_to_pixels size_grid

example : GridSystem.to_pixels ⟨50⟩ (19/10, 21/10) = (95, 105) := by
  norm_num [GridSystem.to_pixels, pyInt]
example : (Except.ok (⟨0⟩ : GridSystem) : Except String GridSystem) = GridSystem.init 0 := rfl

/-- Model of the state built by `App.__init__` (`core/app.py` lines 21-65).
The backend window itself is an external collaborator and out of scope;
only the computed geometry is recorded. -/
structure AppModel where
  size_grid : ℤ × ℤ
  gtp : ℤ
  show_grid : Bool
  grid_system : GridSystem
  window : ℤ × ℤ
deriving DecidableEq, Repr

/-- Model of `App.__init__`: `size_grid = [int(s) for s in size]`,
`gtp = int(gtp)`, window size from `get_window_size(size)` with the raw
(not truncated) `size`. The source performs no validation of `gtp` or
`size`, so construction always succeeds. -/
def App.init (size : ℚ × ℚ) (gtp : ℤ) (show_grid : Bool) : Except String AppModel :=
  let gs : GridSystem := ⟨gtp⟩
  .ok { size_grid := (pyInt size.1, pyInt size.2)
        gtp := gtp
        show_grid := show_grid
        grid_system := gs
        window := gs.get_window_size size }

/-- Model of the geometry computed by `App.btn` (`core/app.py` lines 97-102):
`pos` and `size` components are truncated with `int()` and then converted
through `GridSystem.to_pixels` / `dim_to_pixels`. The other widget
factories (`label`, `input`, `dropdown`, ...) share this computation. -/
def App.btn_px (a : AppModel) (pos size : ℚ × ℚ) : (ℤ × ℤ) × (ℤ × ℤ) :=
  let posI : ℚ × ℚ := ((pyInt pos.1 : ℤ), (pyInt pos.2 : ℤ))
  let sizeI : ℚ × ℚ := ((pyInt size.1 : ℤ), (pyInt size.2 : ℤ))
  (a.grid_system.to_pixels posI, a.grid_system.dim_to_pixels sizeI)

/-- Backend widget as the gesture handlers see it: logical pixel bounds,
the activation capability (`hasattr(widget, "invoke")`), and a count of
`invoke()` calls. -/
structure Widget where
  x : ℚ
  y : ℚ
  width : ℚ
  height : ℚ
  hasInvoke : Bool
  invoked : ℕ
deriving DecidableEq, Repr

/-- The mutable closure dictionary `state` of `App.make_draggable`
(`core/app.py` line 391): `scaling` is absent (`none`) until `on_press`
stores it. -/
structure DragState where
  start_root_x : ℚ
  start_root_y : ℚ
  start_w_x : ℚ
  start_w_y : ℚ
  moved : Bool
  scaling : Option ℚ
deriving DecidableEq, Repr

/-- One draggable element with its gesture bookkeeping: `gtp` from the
`App`, the ambient window scaling `s` (fixed while the machine runs: the
backend reports physical bounds `logical * s` through `winfo_*`, while
`place`/`configure` arguments are logical), the widget, and the closure
state. -/
structure DragSM where
  gtp : ℤ
  s : ℚ
  w : Widget
  st : DragState
deriving DecidableEq, Repr

/-- State after a successful drag `on_press` (`core/app.py` lines 393-402)
whose scaling query answered `scaling`: record the start screen position,
the queried scaling, the scaling-corrected logical widget position
(`winfo_x() / scaling`), and reset `moved`. -/
def dragPressOk (m : DragSM) (scaling : ℚ) (root : ℚ × ℚ) : DragSM :=
  { m with st := { start_root_x := root.1
                   start_root_y := root.2
                   scaling := some scaling
                   start_w_x := m.w.x * m.s / scaling
                   start_w_y := m.w.y * m.s / scaling
                   moved := false } }

/-- Model of drag `on_press`: the `ScalingTracker` query is not guarded by
`try`/`except`, so a failing query (`none`) propagates as an error. -/
def dragPress (m : DragSM) (q : Option ℚ) (root : ℚ × ℚ) : Except Unit DragSM :=
  match q with
  | none => .error ()
  | some scaling => .ok (dragPressOk m scaling root)

/-- Model of drag `on_motion` (`core/app.py` lines 404-412): no scaling
query is made; `state.get("scaling", 1.0)` reads the value stored at press
time with default `1.0`. Sets `moved` when either axis delta strictly
exceeds 3 logical pixels and places the widget at `start + delta`. -/
def dragMotion (m : DragSM) (root : ℚ × ℚ) : DragSM :=
  let scaling := m.st.scaling.getD 1
  let dx := (root.1 - m.st.start_root_x) / scaling
  let dy := (root.2 - m.st.start_root_y) / scaling
  let moved := if 3 < |dx| ∨ 3 < |dy| then true else m.st.moved
  { m with st := { m.st with moved := moved }
           w := { m.w with x := m.st.start_w_x + dx, y := m.st.start_w_y + dy } }

/-- Model of drag `on_release` (`core/app.py` lines 414-421): a non-moved
gesture invokes the widget's activation when present and returns before
any scaling query; a moved gesture re-queries scaling (unguarded), snaps
with `round(curr / gtp)` per axis, and places the widget at `grid * gtp`. -/
def dragRelease (m : DragSM) (q : Option ℚ) : Except Unit DragSM :=
  if m.st.moved = false then
    .ok { m with w := if m.w.hasInvoke then { m.w with invoked := m.w.invoked + 1 } else m.w }
  else
    match q with
    | none => .error ()
    | some scaling =>
      let curr_x := m.w.x * m.s / scaling
      let curr_y := m.w.y * m.s / scaling
      let grid_x := pyRound (curr_x / (m.gtp : ℚ))
      let grid_y := pyRound (curr_y / (m.gtp : ℚ))
      .ok { m with w := { m.w with x := ((grid_x * m.gtp : ℤ) : ℚ), y := ((grid_y * m.gtp : ℤ) : ℚ) } }

/-- One full drag gesture in which the scaling provider answers the ambient
scaling `m.s` whenever queried: press at `root`, the listed motion events,
then release. -/
def dragGesture (m : DragSM) (root : ℚ × ℚ) (moves : List (ℚ × ℚ)) : Except Unit DragSM :=
  dragRelease (moves.foldl dragMotion (dragPressOk m m.s root)) (some m.s)

/-- The mutable closure dictionary `state` of `App.make_resizable`
(`core/app.py` line 442). -/
structure ResizeState where
  start_root_x : ℚ
  start_root_y : ℚ
  start_w : ℚ
  start_h : ℚ
deriving DecidableEq, Repr

/-- One resizable element with its gesture bookkeeping, as in `DragSM`. -/
structure ResizeSM where
  gtp : ℤ
  s : ℚ
  w : Widget
  st : ResizeState
deriving DecidableEq, Repr

/-- Model of resize `on_press` (`core/app.py` lines 444-449): query scaling
(unguarded), record the start screen position and the scaling-corrected
logical start size (`winfo_width() / scaling`). -/
def resizePress (m : ResizeSM) (q : Option ℚ) (root : ℚ × ℚ) : Except Unit ResizeSM :=
  match q with
  | none => .error ()
  | some scaling =>
    .ok { m with st := { start_root_x := root.1
                         start_root_y := root.2
                         start_w := m.w.width * m.s / scaling
                         start_h := m.w.height * m.s / scaling } }

/-- Model of resize `on_motion` (`core/app.py` lines 451-455): unlike drag
`on_motion`, the scaling factor is re-queried (unguarded) on every move
event; the live size written is `max(gtp, start + delta)` per axis. -/
def resizeMotion (m : ResizeSM) (q : Option ℚ) (root : ℚ × ℚ) : Except Unit ResizeSM :=
  match q with
  | none => .error ()
  | some scaling =>
    let dx := (root.1 - m.st.start_root_x) / scaling
    let dy := (root.2 - m.st.start_root_y) / scaling
    .ok { m with w := { m.w with width := max (m.gtp : ℚ) (m.st.start_w + dx)
                                 height := max (m.gtp : ℚ) (m.st.start_h + dy) } }

/-- Model of resize `on_release` (`core/app.py` lines 457-461): re-query
scaling (unguarded), snap with `max(1, round(size / gtp))` per axis, and
commit `grid * gtp`. -/
def resizeRelease (m : ResizeSM) (q : Option ℚ) : Except Unit ResizeSM :=
  match q with
  | none => .error ()
  | some scaling =>
    let curr_w := m.w.width * m.s / scaling
    let curr_h := m.w.height * m.s / scaling
    let grid_w := max 1 (pyRound (curr_w / (m.gtp : ℚ)))
    let grid_h := max 1 (pyRound (curr_h / (m.gtp : ℚ)))
    .ok { m with w := { m.w with width := ((grid_w * m.gtp : ℤ) : ℚ), height := ((grid_h * m.gtp : ℤ) : ℚ) } }

/-- Model of the scaling lookup in `DebugLayer._actual_draw`
(`core/debug.py` lines 64-68): the query is wrapped in `try`/`except`
with fallback `1.0`. -/
def overlayScaling (q : Option ℚ) : ℚ := q.getD 1

/-- Model of one axis of the grid-line loops in `DebugLayer._actual_draw`
(`core/debug.py` lines 92-105): with physical spacing `gtp * scaling`, the
number of loop iterations is `max(int(extent / spacing) + 1, gridCount + 1)`.
The vertical block uses the canvas width and `size_grid[0]`, the horizontal
block the canvas height and `size_grid[1]`. -/
def overlayLineCount (gtp : ℤ) (scaling : ℚ) (extent : ℚ) (gridCount : ℤ) : ℤ :=
  max (pyInt (extent / ((gtp : ℚ) * scaling)) + 1) (gridCount + 1)

/-- Logical pixel quantity `q` lies exactly on the grid: it is an integer
multiple of `gtp`. -/
def onGrid (gtp : ℤ) (q : ℚ) : Prop := ∃ k : ℤ, q = (k : ℚ) * (gtp : ℚ)

/-! ### Helper lemmas -/

lemma pyInt_intCast (n : ℤ) : pyInt (n : ℚ) = n := by
  simp only [pyInt]
  split
  · rw [← Int.cast_neg, Int.floor_intCast, neg_neg]
  · exact Int.floor_intCast n

lemma pyInt_int_mul (k g : ℤ) : pyInt ((k : ℚ) * (g : ℚ)) = k * g := by
  rw [← Int.cast_mul, pyInt_intCast]

lemma dragMotion_fixed (m : DragSM) (r : ℚ × ℚ) :
    (dragMotion m r).gtp = m.gtp ∧ (dragMotion m r).s = m.s ∧
    (dragMotion m r).st.start_root_x = m.st.start_root_x ∧
    (dragMotion m r).st.start_root_y = m.st.start_root_y ∧
    (dragMotion m r).st.start_w_x = m.st.start_w_x ∧
    (dragMotion m r).st.start_w_y = m.st.start_w_y ∧
    (dragMotion m r).st.scaling = m.st.scaling ∧
    (dragMotion m r).w.hasInvoke = m.w.hasInvoke ∧
    (dragMotion m r).w.invoked = m.w.invoked :=
  ⟨rfl, rfl, rfl, rfl, rfl, rfl, rfl, rfl, rfl⟩

lemma dragMotions_fixed (rs : List (ℚ × ℚ)) (m : DragSM) :
    (rs.foldl dragMotion m).gtp = m.gtp ∧ (rs.foldl dragMotion m).s = m.s ∧
    (rs.foldl dragMotion m).st.start_root_x = m.st.start_root_x ∧
    (rs.foldl dragMotion m).st.start_root_y = m.st.start_root_y ∧
    (rs.foldl dragMotion m).st.start_w_x = m.st.start_w_x ∧
    (rs.foldl dragMotion m).st.start_w_y = m.st.start_w_y ∧
    (rs.foldl dragMotion m).st.scaling = m.st.scaling ∧
    (rs.foldl dragMotion m).w.hasInvoke = m.w.hasInvoke ∧
    (rs.foldl dragMotion m).w.invoked = m.w.invoked := by
  induction rs generalizing m with
  | nil => exact ⟨rfl, rfl, rfl, rfl, rfl, rfl, rfl, rfl, rfl⟩
  | cons r rs ih =>
    rw [List.foldl_cons]
    exact ih (dragMotion m r)

/-! ### Claim theorems -/

/-- Claim C1, counterexample: `to_pixels([1.9, 2.1])` with `gtp = 50` yields
`(95, 105)`, not the claimed `(50, 100)`: the source truncates the product
`grid_component * gtp`, not the component. -/
theorem to_pixels_truncation_counterexample :
    GridSystem.to_pixels ⟨50⟩ (19/10, 21/10) = (95, 105) ∧
    ((95, 105) : ℤ × ℤ) ≠ (50, 100) := by
  constructor
  · norm_num [GridSystem.to_pixels, pyInt]
  · decide

/-- Claim C1, amended: `GridSystem.to_pixels` computes per axis
`int(grid_component * gtp)` — truncation toward zero of the product, never
rounding.  On integer grid components this equals `component * gtp`, but
fractional components are not floored before multiplication:
`to_pixels([1.9, 2.1])` with `gtp = 50` yields `(95, 105)`. -/
theorem to_pixels_truncates_product :
    (∀ (g k j : ℤ), GridSystem.to_pixels ⟨g⟩ ((k : ℚ), (j : ℚ)) = (k * g, j * g)) ∧
    (∀ (g : GridSystem) (p : ℚ × ℚ),
      GridSystem.to_pixels g p = (pyInt (p.1 * (g.gtp : ℚ)), pyInt (p.2 * (g.gtp : ℚ)))) ∧
    GridSystem.to_pixels ⟨50⟩ (19/10, 21/10) = (95, 105) := by
  refine ⟨?_, fun g p => rfl, ?_⟩
  · intro g k j
    simp [GridSystem.to_pixels, pyInt_int_mul]
  · norm_num [GridSystem.to_pixels, pyInt]

/-- Claim C5, counterexample: constructing `GridSystem` or `App` with
`gtp = 0` succeeds (no exception is raised) and produces a usable object:
`to_pixels` on the resulting system answers `(0, 0)`. -/
theorem init_gtp_zero_succeeds_counterexample :
    GridSystem.init 0 = .ok ⟨0⟩ ∧
    (App.init (10, 10) 0 false).isOk = true ∧
    GridSystem.to_pixels ⟨0⟩ (1, 1) = (0, 0) := by
  refine ⟨rfl, rfl, ?_⟩
  norm_num [GridSystem.to_pixels, pyInt]

/-- Claim C5, amended: neither `GridSystem.__init__` nor `App.__init__`
validates `gtp`; construction succeeds for every `gtp`, including zero and
negative values, and no configuration error is raised. -/
theorem init_performs_no_validation :
    ∀ gtp : ℤ, GridSystem.init gtp = .ok ⟨gtp⟩ ∧
      ∃ a : AppModel, App.init (10, 10) gtp false = .ok a ∧ a.gtp = gtp := by
  intro gtp
  exact ⟨rfl, ⟨_, rfl, rfl⟩⟩

/-- Claim C10: the widget factories truncate the grid position and size
components with `int()` before conversion, so the created widget's pixel
position is exactly `(int(x) * gtp, int(y) * gtp)` and its pixel size
`(int(w) * gtp, int(h) * gtp)`, independent of the fractional parts. -/
theorem btn_truncates_components_first :
    ∀ (a : AppModel) (x y w h : ℚ),
      App.btn_px a (x, y) (w, h)
        = ((pyInt x * a.grid_system.gtp, pyInt y * a.grid_system.gtp),
           (pyInt w * a.grid_system.gtp, pyInt h * a.grid_system.gtp)) := by
  intro a x y w h
  simp [App.btn_px, GridSystem.to_pixels, GridSystem.dim_to_pixels, pyInt_int_mul]

/-- Claim C2: for every moved drag gesture, `on_release` snaps the element's
logical pixel position to the nearest cell per axis with `round(pixel / gtp)`
and commits `grid * gtp` (logical pixels). -/
theorem drag_release_snaps_to_nearest_cell (m : DragSM)
    (hm : m.st.moved = true) (hs : m.s ≠ 0) :
    (dragRelease m (some m.s)).map (fun x => (x.w.x, x.w.y))
      = .ok (((pyRound (m.w.x / (m.gtp : ℚ)) * m.gtp : ℤ) : ℚ),
             ((pyRound (m.w.y / (m.gtp : ℚ)) * m.gtp : ℤ) : ℚ)) := by
  have hx : m.w.x * m.s / m.s = m.w.x := mul_div_cancel_right₀ _ hs
  have hy : m.w.y * m.s / m.s = m.w.y := mul_div_cancel_right₀ _ hs
  simp [dragRelease, hm, hx, hy, Except.map]

/-- Drag machine at logical pixel `(127, 148)` with `gtp = 50`, scaling 1,
after a gesture that crossed the movement threshold. -/
def dragSnapM : DragSM :=
  { gtp := 50, s := 1
    w := { x := 127, y := 148, width := 100, height := 50, hasInvoke := true, invoked := 0 }
    st := { start_root_x := 60, start_root_y := 60, start_w_x := 100, start_w_y := 100
            moved := true, scaling := some 1 } }

/-- Claim C2, witness: with `gtp = 50` the drag ending at logical pixel
`(127, 148)` commits pixel position `(150, 150)` (grid cell `(3, 3)`). -/
theorem drag_release_snaps_witness :
    dragSnapM.st.moved = true ∧ dragSnapM.s ≠ 0 ∧
    (dragRelease dragSnapM (some dragSnapM.s)).map (fun x => (x.w.x, x.w.y))
      = .ok ((150 : ℚ), (150 : ℚ)) := by
  refine ⟨rfl, by norm_num [dragSnapM], ?_⟩
  rw [drag_release_snaps_to_nearest_cell dragSnapM rfl (by norm_num [dragSnapM])]
  norm_num [dragSnapM, pyRound]

/-- Claim C6, amended: a drag gesture's move handler computes the logical
delta with the scaling captured at press time (it makes no query of its
own), but a resize gesture's move handler re-queries the scaling provider
on every move event and uses that fresh value. -/
theorem motion_scaling_capture :
    (∀ (m : DragSM) (scaling : ℚ) (root r : ℚ × ℚ),
      (dragMotion (dragPressOk m scaling root) r).w.x
          = (dragPressOk m scaling root).st.start_w_x + (r.1 - root.1) / scaling ∧
      (dragMotion (dragPressOk m scaling root) r).w.y
          = (dragPressOk m scaling root).st.start_w_y + (r.2 - root.2) / scaling) ∧
    (∀ (m : ResizeSM) (s₀ s₁ : ℚ) (root r : ℚ × ℚ),
      ((resizePress m (some s₀) root).bind
          (fun m1 => resizeMotion m1 (some s₁) r)).map (fun x => (x.w.width, x.w.height))
        = .ok (max ((m.gtp : ℚ)) (m.w.width * m.s / s₀ + (r.1 - root.1) / s₁),
               max ((m.gtp : ℚ)) (m.w.height * m.s / s₀ + (r.2 - root.2) / s₁))) := by
  constructor
  · intro m scaling root r
    constructor <;> simp [dragMotion, dragPressOk]
  · intro m s₀ s₁ root r
    simp [resizePress, resizeMotion, Except.bind, Except.map]

/-- Resize machine with logical size `(100, 100)`, `gtp = 50`, ambient
scaling 1. -/
def resizeScaleM : ResizeSM :=
  { gtp := 50, s := 1
    w := { x := 0, y := 0, width := 100, height := 100, hasInvoke := false, invoked := 0 }
    st := { start_root_x := 0, start_root_y := 0, start_w := 0, start_h := 0 } }

/-- Claim C6, counterexample: a resize gesture pressed while the provider
answers scaling 1 and moved 10 screen pixels while the provider answers 2
writes logical width `max(50, 100 + 10/2) = 105`; the claimed formula
(delta divided by the press-time scaling 1) would give `110`. -/
theorem resize_motion_requeries_counterexample :
    ((resizePress resizeScaleM (some 1) (0, 0)).bind
        (fun m1 => resizeMotion m1 (some 2) (10, 0))).map (fun x => x.w.width)
      = .ok 105 ∧
    (105 : ℚ) ≠ max ((50 : ℚ)) (100 + ((10 : ℚ) - 0) / 1) := by
  constructor
  · have h5 : max ((50 : ℚ)) 105 = 105 := max_eq_right (by norm_num)
    simp [resizePress, resizeMotion, Except.bind, Except.map, resizeScaleM]
    norm_num [h5]
  · have h1 : max ((50 : ℚ)) (100 + ((10 : ℚ) - 0) / 1) = 110 := by
      rw [show (100 + ((10 : ℚ) - 0) / 1) = 110 by norm_num]
      exact max_eq_right (by norm_num)
    rw [h1]
    norm_num

/-- Claim C7: during a resize gesture the live logical size written on every
move event is `max(gtp, start_size + delta)` per axis, hence never below
`gtp`; on release the committed grid size per axis is
`max(1, round(size / gtp))`, hence never below `(1, 1)`. -/
theorem resize_floor (m : ResizeSM) (scaling : ℚ) (r : ℚ × ℚ) :
    ((resizeMotion m (some scaling) r).map (fun x => (x.w.width, x.w.height))
        = .ok (max ((m.gtp : ℚ)) (m.st.start_w + (r.1 - m.st.start_root_x) / scaling),
               max ((m.gtp : ℚ)) (m.st.start_h + (r.2 - m.st.start_root_y) / scaling)) ∧
      (m.gtp : ℚ) ≤ max ((m.gtp : ℚ)) (m.st.start_w + (r.1 - m.st.start_root_x) / scaling) ∧
      (m.gtp : ℚ) ≤ max ((m.gtp : ℚ)) (m.st.start_h + (r.2 - m.st.start_root_y) / scaling)) ∧
    ((resizeRelease m (some scaling)).map (fun x => (x.w.width, x.w.height))
        = .ok (((max 1 (pyRound (m.w.width * m.s / scaling / (m.gtp : ℚ))) * m.gtp : ℤ) : ℚ),
               ((max 1 (pyRound (m.w.height * m.s / scaling / (m.gtp : ℚ))) * m.gtp : ℤ) : ℚ)) ∧
      1 ≤ max 1 (pyRound (m.w.width * m.s / scaling / (m.gtp : ℚ))) ∧
      1 ≤ max 1 (pyRound (m.w.height * m.s / scaling / (m.gtp : ℚ)))) := by
  refine ⟨⟨?_, le_max_left _ _, le_max_left _ _⟩, ⟨?_, le_max_left _ _, le_max_left _ _⟩⟩
  · simp [resizeMotion, Except.map]
  · simp [resizeRelease, Except.map]

/-- Claim C8, counterexample: with `gtp = 50`, scaling 1, a 125-pixel-wide
surface and one configured grid column, the renderer draws
`max(int(125/50) + 1, 1 + 1) = 3` vertical lines, while the claimed
formula `max(ceil(125/50) + 1, 1 + 1)` gives 4. -/
theorem overlay_count_ceil_counterexample :
    overlayLineCount 50 1 125 1 = 3 ∧
    (3 : ℤ) ≠ max (⌈(125 : ℚ) / ((50 : ℚ) * 1)⌉ + 1) (1 + 1) := by
  constructor
  · simp only [overlayLineCount]
    norm_num [pyInt]
  · have hc : ⌈(125 : ℚ) / ((50 : ℚ) * 1)⌉ = 3 := by
      rw [Int.ceil_eq_iff]
      norm_num
    rw [hc]
    decide

/-- Claim C8, amended: the renderer draws
`max(floor(surface_extent / spacing) + 1, gridCount + 1)` lines per axis
(`int()` truncation of `extent / spacing`, not `ceil`); consequently for a
configured grid extent of `(12, 8)` at least 13 vertical and 9 horizontal
lines are drawn, for every scaling factor and surface size. -/
theorem overlay_line_count_floor :
    (∀ (gtp : ℤ) (scaling extent : ℚ), 0 ≤ extent / ((gtp : ℚ) * scaling) →
        ∀ c : ℤ, overlayLineCount gtp scaling extent c
          = max (⌊extent / ((gtp : ℚ) * scaling)⌋ + 1) (c + 1)) ∧
    (∀ (gtp : ℤ) (scaling extent : ℚ) (c : ℤ),
        c + 1 ≤ overlayLineCount gtp scaling extent c) ∧
    (∀ (gtp : ℤ) (scaling extent : ℚ),
        13 ≤ overlayLineCount gtp scaling extent 12 ∧
        9 ≤ overlayLineCount gtp scaling extent 8) := by
  refine ⟨?_, ?_, ?_⟩
  · intro gtp scaling extent h c
    rw [overlayLineCount, pyInt, if_neg (not_lt.mpr h)]
  · intro gtp scaling extent c
    exact le_max_right _ _
  · intro gtp scaling extent
    constructor
    · calc (13 : ℤ) = 12 + 1 := by norm_num
        _ ≤ _ := le_max_right _ _
    · calc (9 : ℤ) = 8 + 1 := by norm_num
        _ ≤ _ := le_max_right _ _

/-- Claim C8, witness: at `gtp = 50`, scaling 1, surface width 125 and one
grid column the hypothesis `0 ≤ extent / spacing` holds and the floor
formula evaluates to 3 drawn lines; the `(12, 8)` coverage bound holds on
a 600-pixel surface. -/
theorem overlay_line_count_floor_witness :
    ((0 : ℚ) ≤ 125 / ((50 : ℚ) * 1) ∧
      overlayLineCount 50 1 125 1 = max (⌊(125 : ℚ) / ((50 : ℚ) * 1)⌋ + 1) (1 + 1)) ∧
    13 ≤ overlayLineCount 50 1 600 12 := by
  refine ⟨⟨by norm_num, overlay_line_count_floor.1 50 1 125 (by norm_num) 1⟩,
          (overlay_line_count_floor.2.2 50 1 600).1⟩

/-- Draggable element whose closure state holds no captured scaling
(`state["scaling"]` absent) and whose gesture has not crossed the
movement threshold. -/
def dragFailM : DragSM :=
  { gtp := 50, s := 1
    w := { x := 50, y := 50, width := 100, height := 50, hasInvoke := true, invoked := 0 }
    st := { start_root_x := 0, start_root_y := 0, start_w_x := 50, start_w_y := 50
            moved := false, scaling := none } }

/-- Draggable element mid-gesture with the movement threshold crossed. -/
def dragMovedFailM : DragSM :=
  { gtp := 50, s := 1
    w := { x := 127, y := 148, width := 100, height := 50, hasInvoke := true, invoked := 0 }
    st := { start_root_x := 0, start_root_y := 0, start_w_x := 50, start_w_y := 50
            moved := true, scaling := some 1 } }

/-- Resize machine used in the scaling-failure analysis. -/
def resizeFailM : ResizeSM :=
  { gtp := 50, s := 1
    w := { x := 0, y := 0, width := 100, height := 100, hasInvoke := false, invoked := 0 }
    st := { start_root_x := 0, start_root_y := 0, start_w := 100, start_h := 100 } }

/-- Claim C9, counterexample: a failing scaling query inside the drag press
handler or the resize move handler is not caught — the exception
propagates to the caller instead of the handler continuing with 1.0. -/
theorem scaling_failure_propagates_counterexample :
    dragPress dragFailM none (0, 0) = .error () ∧
    resizeMotion resizeFailM none (10, 10) = .error () :=
  ⟨rfl, rfl⟩

/-- Claim C9, amended: only the overlay draw guards its scaling query
(falling back to 1.0), and the drag move handler defaults to 1.0 when no
scaling was captured at press; the drag press handler, the drag release
handler of a moved gesture, and all three resize handlers perform
unguarded queries, so a failing query propagates to the caller. -/
theorem scaling_failure_fallback :
    overlayScaling none = 1 ∧
    (∀ (m : DragSM) (r : ℚ × ℚ), m.st.scaling = none →
        (dragMotion m r).w.x = m.st.start_w_x + (r.1 - m.st.start_root_x) / 1 ∧
        (dragMotion m r).w.y = m.st.start_w_y + (r.2 - m.st.start_root_y) / 1) ∧
    (∀ (m : DragSM) (root : ℚ × ℚ), dragPress m none root = .error ()) ∧
    (∀ m : DragSM, m.st.moved = true → dragRelease m none = .error ()) ∧
    (∀ (m : ResizeSM) (root : ℚ × ℚ), resizePress m none root = .error ()) ∧
    (∀ (m : ResizeSM) (root : ℚ × ℚ), resizeMotion m none root = .error ()) ∧
    (∀ m : ResizeSM, resizeRelease m none = .error ()) := by
  refine ⟨rfl, ?_, fun m root => rfl, ?_, fun m root => rfl, fun m root => rfl, fun m => rfl⟩
  · intro m r h
    constructor <;> simp [dragMotion, h]
  · intro m h
    simp [dragRelease, h]

/-- Claim C9, witness: concrete instances of the amended statement — the
overlay fallback, the drag move default at an uncaptured scaling, and the
propagated failure of a moved-gesture release. -/
theorem scaling_failure_fallback_witness :
    (dragFailM.st.scaling = none ∧
      (dragMotion dragFailM ((5 : ℚ), (0 : ℚ))).w.x
        = dragFailM.st.start_w_x + ((5 : ℚ) - dragFailM.st.start_root_x) / 1) ∧
    (dragMovedFailM.st.moved = true ∧ dragRelease dragMovedFailM none = .error ()) ∧
    overlayScaling none = 1 := by
  refine ⟨⟨rfl, (scaling_failure_fallback.2.1 dragFailM (5, 0) rfl).1⟩,
          ⟨rfl, scaling_failure_fallback.2.2.2.1 dragMovedFailM rfl⟩,
          scaling_failure_fallback.1⟩

lemma dragMotions_moved (rs : List (ℚ × ℚ)) (m : DragSM) :
    (rs.foldl dragMotion m).st.moved
      = (m.st.moved || rs.any (fun r =>
          decide (3 < |(r.1 - m.st.start_root_x) / m.st.scaling.getD 1| ∨
                  3 < |(r.2 - m.st.start_root_y) / m.st.scaling.getD 1|))) := by
  induction rs generalizing m with
  | nil => simp
  | cons r rs ih =>
    rw [List.foldl_cons, ih]
    have h1 : (dragMotion m r).st.start_root_x = m.st.start_root_x := rfl
    have h2 : (dragMotion m r).st.start_root_y = m.st.start_root_y := rfl
    have h3 : (dragMotion m r).st.scaling = m.st.scaling := rfl
    have h4 : (dragMotion m r).st.moved
        = (if 3 < |(r.1 - m.st.start_root_x) / m.st.scaling.getD 1| ∨
              3 < |(r.2 - m.st.start_root_y) / m.st.scaling.getD 1|
           then true else m.st.moved) := rfl
    rw [h1, h2, h3, h4, List.any_cons]
    by_cases h : 3 < |(r.1 - m.st.start_root_x) / m.st.scaling.getD 1| ∨
                 3 < |(r.2 - m.st.start_root_y) / m.st.scaling.getD 1|
    · simp [h]
    · simp [h]

/-- Claim C3: in a full press/motion*/release gesture, if every motion
event's logical delta stays within 3 pixels on both axes the release
invokes the activation action (when present) and performs no position
commit (the widget keeps its live position); if some motion event exceeds
3 logical pixels on either axis, the release commits a grid-multiple
position and does not invoke activation. -/
theorem click_vs_drag (m : DragSM) (root : ℚ × ℚ) (rs : List (ℚ × ℚ)) :
    ((∀ r ∈ rs, |(r.1 - root.1) / m.s| ≤ 3 ∧ |(r.2 - root.2) / m.s| ≤ 3) →
      (dragGesture m root rs).map (fun x => (x.w.invoked, x.w.x, x.w.y))
        = .ok ((if m.w.hasInvoke then m.w.invoked + 1 else m.w.invoked),
               (rs.foldl dragMotion (dragPressOk m m.s root)).w.x,
               (rs.foldl dragMotion (dragPressOk m m.s root)).w.y)) ∧
    ((∃ r ∈ rs, 3 < |(r.1 - root.1) / m.s| ∨ 3 < |(r.2 - root.2) / m.s|) →
      ∃ gx gy : ℤ,
        (dragGesture m root rs).map (fun x => (x.w.invoked, x.w.x, x.w.y))
          = .ok (m.w.invoked, ((gx * m.gtp : ℤ) : ℚ), ((gy * m.gtp : ℤ) : ℚ))) := by
  have hfix := dragMotions_fixed rs (dragPressOk m m.s root)
  obtain ⟨hgtp, hs, hrx, hry, hwx, hwy, hsc, hInv, hInvoked⟩ := hfix
  have hroot1 : (dragPressOk m m.s root).st.start_root_x = root.1 := rfl
  have hroot2 : (dragPressOk m m.s root).st.start_root_y = root.2 := rfl
  have hscal : (dragPressOk m m.s root).st.scaling = some m.s := rfl
  have hmoved0 : (dragPressOk m m.s root).st.moved = false := rfl
  have hmv := dragMotions_moved rs (dragPressOk m m.s root)
  rw [hroot1, hroot2, hscal, hmoved0, Bool.false_or] at hmv
  have hinvok : (rs.foldl dragMotion (dragPressOk m m.s root)).w.invoked = m.w.invoked :=
    hInvoked.trans rfl
  have hinv2 : (rs.foldl dragMotion (dragPressOk m m.s root)).w.hasInvoke = m.w.hasInvoke :=
    hInv.trans rfl
  have hgtp2 : (rs.foldl dragMotion (dragPressOk m m.s root)).gtp = m.gtp := hgtp.trans rfl
  constructor
  · intro hall
    have hany : rs.any (fun r =>
        decide (3 < |(r.1 - root.1) / (some m.s).getD 1| ∨
                3 < |(r.2 - root.2) / (some m.s).getD 1|)) = false := by
      rw [List.any_eq_false]
      intro r hr
      simp only [Option.getD_some, decide_eq_true_eq]
      push_neg
      exact ⟨(hall r hr).1, (hall r hr).2⟩
    rw [hany] at hmv
    unfold dragGesture
    rw [dragRelease, if_pos hmv]
    cases hI : m.w.hasInvoke with
    | false =>
      have h2 := hinv2.trans hI
      simp [Except.map, h2, hI, hinvok]
    | true =>
      have h2 := hinv2.trans hI
      simp [Except.map, h2, hI, hinvok]
  · rintro ⟨r, hr, hcond⟩
    have hany : rs.any (fun r =>
        decide (3 < |(r.1 - root.1) / (some m.s).getD 1| ∨
                3 < |(r.2 - root.2) / (some m.s).getD 1|)) = true := by
      rw [List.any_eq_true]
      exact ⟨r, hr, by simpa using hcond⟩
    rw [hany] at hmv
    unfold dragGesture
    rw [dragRelease, if_neg (by rw [hmv]; exact fun h => nomatch h)]
    refine ⟨pyRound ((rs.foldl dragMotion (dragPressOk m m.s root)).w.x
              * (rs.foldl dragMotion (dragPressOk m m.s root)).s / m.s / (m.gtp : ℚ)),
            pyRound ((rs.foldl dragMotion (dragPressOk m m.s root)).w.y
              * (rs.foldl dragMotion (dragPressOk m m.s root)).s / m.s / (m.gtp : ℚ)), ?_⟩
    simp [Except.map, hinvok, hgtp2]

/-- Draggable button at logical `(50, 50)` with `gtp = 50`, scaling 1, idle
gesture state. -/
def clickDragM : DragSM :=
  { gtp := 50, s := 1
    w := { x := 50, y := 50, width := 100, height := 50, hasInvoke := true, invoked := 0 }
    st := { start_root_x := 0, start_root_y := 0, start_w_x := 0, start_w_y := 0
            moved := false, scaling := none } }

/-- Claim C3, witness: a gesture moving `(2, 1)` pixels clicks (activation
fires once, no snap: the widget stays at the live position `(52, 51)`),
while a gesture moving `(77, 98)` pixels commits the snapped position
`(150, 150)` without activating. -/
theorem click_vs_drag_witness :
    ((∀ r ∈ ([((2 : ℚ), (1 : ℚ))] : List (ℚ × ℚ)),
        |(r.1 - ((0 : ℚ), (0 : ℚ)).1) / clickDragM.s| ≤ 3 ∧
        |(r.2 - ((0 : ℚ), (0 : ℚ)).2) / clickDragM.s| ≤ 3) ∧
      (dragGesture clickDragM (0, 0) [(2, 1)]).map (fun x => (x.w.invoked, x.w.x, x.w.y))
        = .ok (1, (52 : ℚ), (51 : ℚ))) ∧
    ((∃ r ∈ ([((77 : ℚ), (98 : ℚ))] : List (ℚ × ℚ)),
        3 < |(r.1 - ((0 : ℚ), (0 : ℚ)).1) / clickDragM.s| ∨
        3 < |(r.2 - ((0 : ℚ), (0 : ℚ)).2) / clickDragM.s|) ∧
      (dragGesture clickDragM (0, 0) [(77, 98)]).map (fun x => (x.w.invoked, x.w.x, x.w.y))
        = .ok (0, (150 : ℚ), (150 : ℚ))) := by
  have hall : ∀ r ∈ ([((2 : ℚ), (1 : ℚ))] : List (ℚ × ℚ)),
      |(r.1 - ((0 : ℚ), (0 : ℚ)).1) / clickDragM.s| ≤ 3 ∧
      |(r.2 - ((0 : ℚ), (0 : ℚ)).2) / clickDragM.s| ≤ 3 := by
    intro r hr
    simp only [List.mem_singleton] at hr
    subst hr
    constructor <;> norm_num [clickDragM]
  have h1 := (click_vs_drag clickDragM ((0 : ℚ), (0 : ℚ)) [(2, 1)]).1 hall
  refine ⟨⟨hall, h1.trans ?_⟩, ⟨⟨(77, 98), by simp, by norm_num [clickDragM]⟩, ?_⟩⟩
  · norm_num [clickDragM, dragPressOk, dragMotion]
  · norm_num [dragGesture, dragPressOk, dragMotion, dragRelease, clickDragM, Except.map, pyRound]

/-- Draggable element (no activation action) at logical `(50, 50)` with
`gtp = 50`, scaling 1, idle gesture state. -/
def subThresholdM : DragSM :=
  { gtp := 50, s := 1
    w := { x := 50, y := 50, width := 100, height := 50, hasInvoke := false, invoked := 0 }
    st := { start_root_x := 0, start_root_y := 0, start_w_x := 0, start_w_y := 0
            moved := false, scaling := none } }

/-- Claim C4, counterexample: a press/move/release gesture whose only
motion is 2 logical pixels never sets `moved`, so the release performs no
commit and the element rests at logical x `52` after the gesture ends —
an off-grid position (`gtp = 50`) while no gesture is in progress. -/
theorem offgrid_after_click_release_counterexample :
    (dragGesture subThresholdM (0, 0) [(2, 0)]).map (fun x => (x.w.x, x.w.y))
      = .ok ((52 : ℚ), (50 : ℚ)) ∧
    ¬ onGrid 50 (52 : ℚ) := by
  constructor
  · norm_num [dragGesture, dragPressOk, dragMotion, dragRelease, subThresholdM, Except.map]
  · rintro ⟨k, hk⟩
    have hk2 : (52 : ℤ) = k * 50 := by exact_mod_cast hk
    omega

/-- Claim C4, amended: the release of a drag gesture that crossed the
3-pixel movement threshold, and every resize release, commit pixel bounds
that are exact integer multiples of `gtp`; a sub-threshold (click)
release, however, performs no commit, so the element can rest off-grid by
up to the threshold distance after such a gesture ends. -/
theorem release_commits_on_grid :
    (∀ m : DragSM, m.st.moved = true → ∀ m2, dragRelease m (some m.s) = .ok m2 →
        onGrid m.gtp m2.w.x ∧ onGrid m.gtp m2.w.y) ∧
    (∀ m : ResizeSM, ∀ m2, resizeRelease m (some m.s) = .ok m2 →
        onGrid m.gtp m2.w.width ∧ onGrid m.gtp m2.w.height) := by
  constructor
  · intro m hm m2 h
    rw [dragRelease, if_neg (by rw [hm]; exact fun hh => nomatch hh)] at h
    simp only [Except.ok.injEq] at h
    subst h
    constructor
    · exact ⟨pyRound (m.w.x * m.s / m.s / (m.gtp : ℚ)), by push_cast; ring⟩
    · exact ⟨pyRound (m.w.y * m.s / m.s / (m.gtp : ℚ)), by push_cast; ring⟩
  · intro m m2 h
    rw [resizeRelease] at h
    simp only [Except.ok.injEq] at h
    subst h
    constructor
    · exact ⟨max 1 (pyRound (m.w.width * m.s / m.s / (m.gtp : ℚ))), by push_cast; ring⟩
    · exact ⟨max 1 (pyRound (m.w.height * m.s / m.s / (m.gtp : ℚ))), by push_cast; ring⟩

/-- Draggable element mid-gesture at live logical `(127, 148)` with the
movement threshold crossed. -/
def movedCommitM : DragSM :=
  { gtp := 50, s := 1
    w := { x := 127, y := 148, width := 100, height := 50, hasInvoke := false, invoked := 0 }
    st := { start_root_x := 0, start_root_y := 0, start_w_x := 50, start_w_y := 50
            moved := true, scaling := some 1 } }

/-- State of `movedCommitM` after its release commits `(150, 150)`. -/
def movedCommitMAfter : DragSM :=
  { movedCommitM with w := { movedCommitM.w with x := 150, y := 150 } }

/-- Claim C4, witness: releasing the moved gesture of `movedCommitM`
commits `(150, 150)`, which is on the `gtp = 50` grid. -/
theorem release_commits_on_grid_witness :
    (movedCommitM.st.moved = true ∧
      dragRelease movedCommitM (some movedCommitM.s) = .ok movedCommitMAfter) ∧
    onGrid movedCommitM.gtp movedCommitMAfter.w.x ∧
    onGrid movedCommitM.gtp movedCommitMAfter.w.y := by
  have hok : dragRelease movedCommitM (some movedCommitM.s) = .ok movedCommitMAfter := by
    norm_num [dragRelease, movedCommitM, movedCommitMAfter, pyRound]
  exact ⟨⟨rfl, hok⟩, release_commits_on_grid.1 movedCommitM rfl movedCommitMAfter hok⟩
